import Mathlib

/-!
Verification of the callback-trampoline and typed-channel-pointer subsystem of
the csound-rs binding layer, against its natural-language specification.

The Rust sources embedded here are `src/callbacks.rs`, `src/channels.rs`,
`src/enums.rs` and the relevant parts of `src/csound.rs`.  Machine values are
modelled as `Nat`/`Int`, raw `double` samples as `Float`, C byte strings as
`List Nat` (the bytes before the terminating NUL), and engine-owned memory
regions as Lean lists or stores with explicit addresses.  A host closure is a
Lean function returning a `CbOutcome`, whose `panic` constructor stands for a
Rust panic raised inside the closure; an `extern "C"` trampoline returns an
`FfiResult`, whose `exit` constructor stands for `std::process::exit` and whose
`unwound` constructor stands for a panic escaping across the FFI boundary
(never produced by code that wraps its body in `catch`).
-/

/-- Embeds `enums.rs` `Status` together with its `From<i32>` conversion. -/
inductive Status where
  | CS_SIGNAL
  | CS_MEMORY
  | CS_PERFORMANCE
  | CS_INITIALIZATION
  | CS_ERROR
  | CS_SUCCESS
  | CS_OK (value : Int)
deriving DecidableEq, Repr

/-- Embeds `impl From<i32> for Status` from `enums.rs`. -/
def Status.fromInt (value : Int) : Status :=
  if value = -5 then .CS_SIGNAL
  else if value = -4 then .CS_MEMORY
  else if value = -3 then .CS_PERFORMANCE
  else if value = -2 then .CS_INITIALIZATION
  else if value = -1 then .CS_ERROR
  else if value = 0 then .CS_SUCCESS
  else .CS_OK value

/-- Embeds `Status::to_i32` from `enums.rs`. -/
def Status.to_i32 : Status → Int
  | .CS_SIGNAL => -5
  | .CS_MEMORY => -4
  | .CS_PERFORMANCE => -3
  | .CS_INITIALIZATION => -2
  | .CS_ERROR => -1
  | .CS_SUCCESS => 0
  | .CS_OK value => value

/-- Embeds `enums.rs` `MessageType`. -/
inductive MessageType where
  | CSOUNDMSG_DEFAULT
  | CSOUNDMSG_ERROR
  | CSOUNDMSG_ORCH
  | CSOUNDMSG_REALTIME
  | CSOUNDMSG_WARNING
  | CSOUNDMSG_STDOUT
deriving DecidableEq, Repr

/-- Embeds `MessageType::from_u32` from `enums.rs` (unknown attributes map to
the error kind). -/
def MessageType.from_u32 (value : Nat) : MessageType :=
  if value = 0x0000 then .CSOUNDMSG_DEFAULT
  else if value = 0x1000 then .CSOUNDMSG_ERROR
  else if value = 0x2000 then .CSOUNDMSG_ORCH
  else if value = 0x3000 then .CSOUNDMSG_REALTIME
  else if value = 0x4000 then .CSOUNDMSG_WARNING
  else if value = 0x5000 then .CSOUNDMSG_STDOUT
  else .CSOUNDMSG_ERROR

/-- Embeds `enums.rs` `ChannelData`, the value a channel callback exchanges
with the engine: a control value, a string, or unknown. -/
inductive ChannelData where
  | CS_CONTROL_CHANNEL (data : Float)
  | CS_STRING_CHANNEL (s : String)
  | CS_UNKNOWN_CHANNEL

/-- Outcome of invoking a host closure: a normal return, or a Rust panic
raised inside the closure body. -/
inductive CbOutcome (α : Type) where
  | ok (a : α)
  | panic

/-- Applies a pure continuation to the closure outcome, mirroring the
straight-line Rust code that follows a closure call inside a trampoline. -/
def CbOutcome.map {α β : Type} (f : α → β) : CbOutcome α → CbOutcome β
  | .ok a => .ok (f a)
  | .panic => .panic

/-- Result of an `extern "C"` trampoline as seen by the native engine:
a normal return value, an abrupt `std::process::exit`, or a panic unwinding
across the FFI boundary into native frames. -/
inductive FfiResult (α : Type) where
  | ret (a : α)
  | exit (code : Int)
  | unwound

/-- Embeds `Trampoline::catch` from `callbacks.rs`: `panic::catch_unwind`
around the body, returning the value on success and calling
`std::process::exit(-1)` when the body panicked. -/
def Trampoline.catch {α : Type} (body : CbOutcome α) : FfiResult α :=
  match body with
  | .ok a => .ret a
  | .panic => .exit (-1)

@[simp] theorem Trampoline.catch_ok {α : Type} (a : α) :
    Trampoline.catch (.ok a) = .ret a := rfl

@[simp] theorem Trampoline.catch_panic {α : Type} :
    Trampoline.catch (α := α) .panic = .exit (-1) := rfl

/-- Tests whether a byte is a UTF-8 continuation byte (`0x80-0xBF`). -/
def isUtf8Cont (b : Nat) : Bool := 0x80 ≤ b && b ≤ 0xBF

/-- Decodes a byte list as UTF-8, returning `none` exactly when the bytes are
not valid UTF-8.  This models the validation performed by Rust
`CStr::to_str` (continuation-byte checks, overlong-encoding and surrogate
rejection, four-byte maximum). -/
def utf8Decode : List Nat → Option (List Char)
  | [] => some []
  | b :: rest =>
    if b < 0x80 then
      (utf8Decode rest).map (Char.ofNat b :: ·)
    else if 0xC2 ≤ b && b ≤ 0xDF then
      match rest with
      | c1 :: rest1 =>
        if isUtf8Cont c1 then
          (utf8Decode rest1).map (Char.ofNat ((b - 0xC0) * 64 + (c1 - 0x80)) :: ·)
        else none
      | [] => none
    else if 0xE0 ≤ b && b ≤ 0xEF then
      match rest with
      | c1 :: c2 :: rest2 =>
        let lo1 := if b = 0xE0 then 0xA0 else 0x80
        let hi1 := if b = 0xED then 0x9F else 0xBF
        if lo1 ≤ c1 && c1 ≤ hi1 && isUtf8Cont c2 then
          (utf8Decode rest2).map
            (Char.ofNat ((b - 0xE0) * 4096 + (c1 - 0x80) * 64 + (c2 - 0x80)) :: ·)
        else none
      | _ => none
    else if 0xF0 ≤ b && b ≤ 0xF4 then
      match rest with
      | c1 :: c2 :: c3 :: rest3 =>
        let lo1 := if b = 0xF0 then 0x90 else 0x80
        let hi1 := if b = 0xF4 then 0x8F else 0xBF
        if lo1 ≤ c1 && c1 ≤ hi1 && isUtf8Cont c2 && isUtf8Cont c3 then
          (utf8Decode rest3).map
            (Char.ofNat ((b - 0xF0) * 262144 + (c1 - 0x80) * 4096 +
              (c2 - 0x80) * 64 + (c3 - 0x80)) :: ·)
        else none
      | _ => none
    else none

/-- UTF-8 bytes of one character, as produced by Rust `String` storage. -/
def charBytes (c : Char) : List Nat :=
  let n := c.toNat
  if n < 0x80 then [n]
  else if n < 0x800 then [0xC0 + n / 64, 0x80 + n % 64]
  else if n < 0x10000 then
    [0xE0 + n / 4096, 0x80 + (n / 64) % 64, 0x80 + n % 64]
  else
    [0xF0 + n / 262144, 0x80 + (n / 4096) % 64, 0x80 + (n / 64) % 64, 0x80 + n % 64]

/-- UTF-8 byte content of a Rust `String`; `(strBytes s).length` is what
`s.len()` returns in Rust. -/
def strBytes (s : String) : List Nat := (s.data.map charBytes).flatten

/-- Whether the string contains a NUL byte; `CString::new(s)` in Rust fails
exactly in this case. -/
def hasNulByte (s : String) : Bool := (strBytes s).contains 0

/-- Embeds `Trampoline::ptr_to_string` from `callbacks.rs`: a null pointer
(`none`) yields `none`; otherwise the bytes before the terminating NUL are
decoded and an undecodable byte sequence also yields `none`. -/
def ptr_to_string (p : Option (List Nat)) : Option String :=
  match p with
  | some bs => (utf8Decode bs).map (fun cs => String.mk cs)
  | none => none

/-- Embeds `std::ptr::copy(src, dst, n)` for the non-overlapping regions used
by the write paths: the first `n` elements of the destination are replaced by
the first `n` elements of the source. -/
def ptrCopy {α : Type} (src dst : List α) (n : Nat) : List α :=
  src.take n ++ dst.drop n

example : utf8Decode [0x61, 0x62] = some ['a', 'b'] := by decide
example : utf8Decode [0xFF] = none := by decide
example : utf8Decode [0xC3, 0xA9] = some ['é'] := by decide
example : strBytes "hi" = [104, 105] := by decide
example : hasNulByte "a\x00b" = true := by decide
example : hasNulByte "freq" = false := by decide

/-- Embeds `rtaudio.rs` `RtAudioParams`, the host-side record handed to the
play-open and record-open closures. -/
structure RtAudioParams where
  devName : Option String
  devNum : Nat
  bufSamp_SW : Nat
  bufSamp_HW : Nat
  nChannels : Nat
  sampleFormat : Nat
  sampleRate : Float

/-- Models the native `csRtAudioParams` struct handed to the play-open and
record-open trampolines: `devName` is a possibly-null C string (bytes before
the NUL terminator), the numeric fields are as in the native struct. -/
structure RtAudioParamsRaw where
  devName : Option (List Nat)
  devNum : Nat
  bufSamp_SW : Nat
  bufSamp_HW : Nat
  nChannels : Nat
  sampleFormat : Nat
  sampleRate : Float

/-- Embeds the field-by-field construction of `RtAudioParams` performed at the
top of `Trampoline::playOpenCallback` and `Trampoline::recOpenCallback`. -/
def rtParamsOfRaw (dev : RtAudioParamsRaw) : RtAudioParams :=
  { devName := ptr_to_string dev.devName
    devNum := dev.devNum
    bufSamp_SW := dev.bufSamp_SW
    bufSamp_HW := dev.bufSamp_HW
    nChannels := dev.nChannels
    sampleFormat := dev.sampleFormat
    sampleRate := dev.sampleRate }

/-- Embeds `rtaudio.rs` `CsAudioDevice`. -/
structure CsAudioDevice where
  device_name : Option String
  device_id : Option String
  rt_module : Option String
  max_nchnls : Nat
  isOutput : Nat

/-- Models the native `CS_AUDIODEVICE` struct: three NUL-terminated character
arrays and a channel count. -/
structure CsAudioDeviceRaw where
  device_name : List Nat
  device_id : List Nat
  rt_module : List Nat
  max_nchnls : Nat

/-- Embeds `callbacks.rs` `FileInfo`; `file_type` keeps the numeric code that
`FileTypes::from(fileType as u8)` classifies (codes above 63 collapse to the
unknown type 0, mirroring `impl From<u8> for FileTypes`). -/
structure FileInfo where
  name : Option String
  file_type : Nat
  is_writing : Bool
  is_temp : Bool

/-- Embeds `impl From<u8> for FileTypes` from `enums.rs` at the level of
numeric codes. -/
def FileTypes.fromCode (item : Nat) : Nat :=
  if item > 63 then 0 else item

/-- The closed enumeration of callback event kinds; the value records which
native `csoundSet...Callback` registration function a setter invokes, i.e.
which trampoline is installed with the engine. -/
inductive EventKind where
  | message
  | audioDevList
  | playOpen
  | recOpen
  | rtPlay
  | rtRec
  | rtClose
  | senseEvent
  | cscore
  | channelInput
  | channelOutput
  | fileOpen
  | midiInOpen
  | midiOutOpen
  | midiRead
  | midiWrite
  | midiInClose
  | midiOutClose
  | yieldEvent
deriving DecidableEq, Repr

/-- Embeds the `Callbacks` registry struct of `callbacks.rs`: one optional
closure per supported event kind, with the source field names.  Each closure
is a Lean function whose `CbOutcome` result can be a panic. -/
structure Callbacks where
  message_cb : Option (MessageType → String → CbOutcome Unit)
  devlist_cb : Option (CsAudioDevice → CbOutcome Unit)
  play_open_cb : Option (RtAudioParams → CbOutcome Status)
  rec_open_cb : Option (RtAudioParams → CbOutcome Status)
  rt_play_cb : Option (List Float → CbOutcome Unit)
  rt_rec_cb : Option (List Float → CbOutcome (List Float × Nat))
  sense_event_cb : Option (Unit → CbOutcome Unit)
  keyboard_cb : Option (Unit → CbOutcome Char)
  rt_close_cb : Option (Unit → CbOutcome Unit)
  cscore_cb : Option (Unit → CbOutcome Unit)
  input_channel_cb : Option (String → CbOutcome ChannelData)
  output_channel_cb : Option (String → ChannelData → CbOutcome Unit)
  file_open_cb : Option (FileInfo → CbOutcome Unit)
  midi_in_open_cb : Option (String → CbOutcome Unit)
  midi_out_open_cb : Option (String → CbOutcome Unit)
  midi_read_cb : Option (List Nat → CbOutcome (List Nat × Nat))
  midi_write_cb : Option (List Nat → CbOutcome Nat)
  midi_in_close_cb : Option (Unit → CbOutcome Unit)
  midi_out_close_cb : Option (Unit → CbOutcome Unit)
  yield_cb : Option (Unit → CbOutcome Bool)

/-- Embeds `Callbacks::default()` (the derived `Default`): every slot empty. -/
def Callbacks.empty : Callbacks :=
  { message_cb := none, devlist_cb := none, play_open_cb := none
    rec_open_cb := none, rt_play_cb := none, rt_rec_cb := none
    sense_event_cb := none, keyboard_cb := none, rt_close_cb := none
    cscore_cb := none, input_channel_cb := none, output_channel_cb := none
    file_open_cb := none, midi_in_open_cb := none, midi_out_open_cb := none
    midi_read_cb := none, midi_write_cb := none, midi_in_close_cb := none
    midi_out_close_cb := none, yield_cb := none }

/-- Embeds `Callbacks::set_message_cb`: stores the closure in `message_cb`
and registers `Trampoline::message_string_cb` with the engine. -/
def Callbacks.set_message_cb (c : Callbacks)
    (cb : MessageType → String → CbOutcome Unit) : Callbacks × EventKind :=
  ({ c with message_cb := some cb }, .message)

/-- Embeds `Callbacks::set_devlist_cb`. -/
def Callbacks.set_devlist_cb (c : Callbacks)
    (cb : CsAudioDevice → CbOutcome Unit) : Callbacks × EventKind :=
  ({ c with devlist_cb := some cb }, .audioDevList)

/-- Embeds `Callbacks::set_play_open_cb`: stores the closure in
`play_open_cb` and registers `Trampoline::playOpenCallback`. -/
def Callbacks.set_play_open_cb (c : Callbacks)
    (cb : RtAudioParams → CbOutcome Status) : Callbacks × EventKind :=
  ({ c with play_open_cb := some cb }, .playOpen)

/-- Embeds `Callbacks::set_rec_open_cb` as written in `callbacks.rs` lines
72-78: the body assigns `self.play_open_cb = Some(Box::new(cb))` and then
registers `Trampoline::recOpenCallback` with the engine. -/
def Callbacks.set_rec_open_cb (c : Callbacks)
    (cb : RtAudioParams → CbOutcome Status) : Callbacks × EventKind :=
  ({ c with play_open_cb := some cb }, .recOpen)

/-- Embeds `Callbacks::set_rt_play_cb`. -/
def Callbacks.set_rt_play_cb (c : Callbacks)
    (cb : List Float → CbOutcome Unit) : Callbacks × EventKind :=
  ({ c with rt_play_cb := some cb }, .rtPlay)

/-- Embeds `Callbacks::set_rt_rec_cb`. -/
def Callbacks.set_rt_rec_cb (c : Callbacks)
    (cb : List Float → CbOutcome (List Float × Nat)) : Callbacks × EventKind :=
  ({ c with rt_rec_cb := some cb }, .rtRec)

/-- Embeds `Callbacks::set_rt_close_cb`. -/
def Callbacks.set_rt_close_cb (c : Callbacks)
    (cb : Unit → CbOutcome Unit) : Callbacks × EventKind :=
  ({ c with rt_close_cb := some cb }, .rtClose)

/-- Embeds `Callbacks::set_sense_event_cb`. -/
def Callbacks.set_sense_event_cb (c : Callbacks)
    (cb : Unit → CbOutcome Unit) : Callbacks × EventKind :=
  ({ c with sense_event_cb := some cb }, .senseEvent)

/-- Embeds `Callbacks::set_input_channel_cb`. -/
def Callbacks.set_input_channel_cb (c : Callbacks)
    (cb : String → CbOutcome ChannelData) : Callbacks × EventKind :=
  ({ c with input_channel_cb := some cb }, .channelInput)

/-- Embeds `Callbacks::set_output_channel_cb`. -/
def Callbacks.set_output_channel_cb (c : Callbacks)
    (cb : String → ChannelData → CbOutcome Unit) : Callbacks × EventKind :=
  ({ c with output_channel_cb := some cb }, .channelOutput)

/-- Embeds `Callbacks::set_file_open_cb`. -/
def Callbacks.set_file_open_cb (c : Callbacks)
    (cb : FileInfo → CbOutcome Unit) : Callbacks × EventKind :=
  ({ c with file_open_cb := some cb }, .fileOpen)

/-- Embeds `Callbacks::set_midi_in_open_cb`. -/
def Callbacks.set_midi_in_open_cb (c : Callbacks)
    (cb : String → CbOutcome Unit) : Callbacks × EventKind :=
  ({ c with midi_in_open_cb := some cb }, .midiInOpen)

/-- Embeds `Callbacks::set_midi_out_open_cb`. -/
def Callbacks.set_midi_out_open_cb (c : Callbacks)
    (cb : String → CbOutcome Unit) : Callbacks × EventKind :=
  ({ c with midi_out_open_cb := some cb }, .midiOutOpen)

/-- Embeds `Callbacks::set_midi_read_cb`. -/
def Callbacks.set_midi_read_cb (c : Callbacks)
    (cb : List Nat → CbOutcome (List Nat × Nat)) : Callbacks × EventKind :=
  ({ c with midi_read_cb := some cb }, .midiRead)

/-- Embeds `Callbacks::set_midi_write_cb`. -/
def Callbacks.set_midi_write_cb (c : Callbacks)
    (cb : List Nat → CbOutcome Nat) : Callbacks × EventKind :=
  ({ c with midi_write_cb := some cb }, .midiWrite)

/-- Embeds `Callbacks::set_midi_in_close_cb`. -/
def Callbacks.set_midi_in_close_cb (c : Callbacks)
    (cb : Unit → CbOutcome Unit) : Callbacks × EventKind :=
  ({ c with midi_in_close_cb := some cb }, .midiInClose)

/-- Embeds `Callbacks::set_midi_out_close_cb`. -/
def Callbacks.set_midi_out_close_cb (c : Callbacks)
    (cb : Unit → CbOutcome Unit) : Callbacks × EventKind :=
  ({ c with midi_out_close_cb := some cb }, .midiOutClose)

/-- Embeds `Callbacks::set_yield_cb`. -/
def Callbacks.set_yield_cb (c : Callbacks)
    (cb : Unit → CbOutcome Bool) : Callbacks × EventKind :=
  ({ c with yield_cb := some cb }, .yieldEvent)

/-- Embeds `Csound::play_open_audio_callback` from `csound.rs` lines
2288-2298: stores the closure in the host-data registry slot `play_open_cb`
and calls `enable_callback(PLAY_OPEN)`, which installs
`Trampoline::playOpenCallback`. -/
def Csound.play_open_audio_callback (c : Callbacks)
    (cb : RtAudioParams → CbOutcome Status) : Callbacks × EventKind :=
  ({ c with play_open_cb := some cb }, .playOpen)

/-- Embeds `Csound::rec_open_audio_callback` from `csound.rs` lines
2303-2313 as written: the body assigns `.play_open_cb = Some(Box::new(f))`
and calls `enable_callback(REC_OPEN)`, which installs
`Trampoline::recOpenCallback`. -/
def Csound.rec_open_audio_callback (c : Callbacks)
    (cb : RtAudioParams → CbOutcome Status) : Callbacks × EventKind :=
  ({ c with play_open_cb := some cb }, .recOpen)

/-- The channel value cell behind the `void*` `channelValuePtr` argument of
the channel trampolines: the same raw memory read as a `f64` by the control
path and as bytes by the string path. -/
structure ChanCell where
  fval : Float
  bytes : List Nat

/-- Embeds the field-by-field construction of `CsAudioDevice` performed at
the top of `Trampoline::audioDeviceListCallback`. -/
def csDeviceOfRaw (dev : CsAudioDeviceRaw) (isOutput : Nat) : CsAudioDevice :=
  { device_name := ptr_to_string (some dev.device_name)
    device_id := ptr_to_string (some dev.device_id)
    rt_module := ptr_to_string (some dev.rt_module)
    max_nchnls := dev.max_nchnls
    isOutput := isOutput }

/-- Embeds the `FileInfo` construction performed at the top of
`Trampoline::fileOpenCallback`. -/
def fileInfoOfRaw (filePath : Option (List Nat)) (fileType : Nat)
    (operation : Nat) (isTemp : Nat) : FileInfo :=
  { name := ptr_to_string filePath
    file_type := FileTypes.fromCode fileType
    is_writing := operation ≠ 0
    is_temp := isTemp ≠ 0 }

namespace Trampoline

/-- Embeds `Trampoline::message_string_cb`: decodes the message C string
(an undecodable message is dropped), dispatches the registered message
closure if any, all inside `catch`. -/
def message_string_cb (cbs : Callbacks) (attr : Nat) (message : List Nat) :
    FfiResult Unit :=
  Trampoline.catch
    (match utf8Decode message with
     | some cs =>
       match cbs.message_cb with
       | some f => f (MessageType.from_u32 attr) (String.mk cs)
       | none => .ok ()
     | none => .ok ())

/-- Embeds `Trampoline::senseEventCallback`. -/
def senseEventCallback (cbs : Callbacks) : FfiResult Unit :=
  Trampoline.catch
    (match cbs.sense_event_cb with
     | some f => f ()
     | none => .ok ())

/-- Embeds `Trampoline::playOpenCallback`: builds `RtAudioParams` from the
native struct, dispatches the play-open closure converting its `Status` with
`to_i32`, and returns `0` when no closure is registered. -/
def playOpenCallback (cbs : Callbacks) (dev : RtAudioParamsRaw) :
    FfiResult Int :=
  Trampoline.catch
    (let rtParams := rtParamsOfRaw dev
     match cbs.play_open_cb with
     | some f => (f rtParams).map Status.to_i32
     | none => .ok 0)

/-- Embeds `Trampoline::recOpenCallback`: like the play-open trampoline but
reading the `rec_open_cb` slot and returning `-1` when it is empty. -/
def recOpenCallback (cbs : Callbacks) (dev : RtAudioParamsRaw) :
    FfiResult Int :=
  Trampoline.catch
    (let rtParams := rtParamsOfRaw dev
     match cbs.rec_open_cb with
     | some f => (f rtParams).map Status.to_i32
     | none => .ok (-1))

/-- Embeds `Trampoline::rtcloseCallback`. -/
def rtcloseCallback (cbs : Callbacks) : FfiResult Unit :=
  Trampoline.catch
    (match cbs.rt_close_cb with
     | some f => f ()
     | none => .ok ())

/-- Embeds `Trampoline::rtplayCallback`: presents the output buffer to the
real-time play closure if one is registered. -/
def rtplayCallback (cbs : Callbacks) (outBuf : List Float) : FfiResult Unit :=
  Trampoline.catch
    (match cbs.rt_play_cb with
     | some f => f outBuf
     | none => .ok ())

/-- Embeds `Trampoline::rtrecordCallback`: hands the mutable sample buffer to
the real-time record closure and returns its element count; with an empty
slot it returns `-1` and leaves the buffer unchanged.  The returned pair is
(native return value, buffer contents after the call). -/
def rtrecordCallback (cbs : Callbacks) (buf : List Float) :
    FfiResult (Int × List Float) :=
  Trampoline.catch
    (match cbs.rt_rec_cb with
     | some f => (f buf).map (fun r => ((r.2 : Int), r.1))
     | none => .ok (-1, buf))

/-- Embeds `Trampoline::audioDeviceListCallback`: copies the native device
record into a `CsAudioDevice`, dispatches the device-list closure if any,
and returns `0`. -/
def audioDeviceListCallback (cbs : Callbacks) (dev : CsAudioDeviceRaw)
    (isOutput : Nat) : FfiResult Int :=
  Trampoline.catch
    (let audioDevice := csDeviceOfRaw dev isOutput
     match cbs.devlist_cb with
     | some f => (f audioDevice).map (fun _ => 0)
     | none => .ok 0)

/-- Embeds `Trampoline::fileOpenCallback`: builds a `FileInfo` snapshot (an
undecodable path becomes an absent name) and dispatches the file-open
closure if any. -/
def fileOpenCallback (cbs : Callbacks) (filePath : Option (List Nat))
    (fileType : Nat) (operation : Nat) (isTemp : Nat) : FfiResult Unit :=
  Trampoline.catch
    (let file_info := fileInfoOfRaw filePath fileType operation isTemp
     match cbs.file_open_cb with
     | some f => f file_info
     | none => .ok ())

/-- Embeds `Trampoline::inputChannelCallback`: an undecodable channel name or
an empty slot returns with the channel cell untouched; a control result is
written to the cell as a `f64`; a string result of byte length `len` is
copied (`memcpy` of `len` bytes) into the cell only when
`csoundGetChannelDatasize <= len` and `CString::new` accepted the string
(no NUL byte); any other case leaves the cell unchanged.  The result carries
the cell contents after the call. -/
def inputChannelCallback (cbs : Callbacks) (channelName : List Nat)
    (cell : ChanCell) (datasize : Nat) : FfiResult ChanCell :=
  Trampoline.catch
    (match utf8Decode channelName with
     | none => .ok cell
     | some nm =>
       match cbs.input_channel_cb with
       | none => .ok cell
       | some f =>
         (f (String.mk nm)).map (fun result =>
           match result with
           | .CS_CONTROL_CHANNEL data => { cell with fval := data }
           | .CS_STRING_CHANNEL s =>
             let len := (strBytes s).length
             if datasize ≤ len then
               if (strBytes s).contains 0 then cell
               else { cell with bytes := ptrCopy (strBytes s) cell.bytes len }
             else cell
           | .CS_UNKNOWN_CHANNEL => cell))

/-- Embeds `Trampoline::outputChannelCallback`: an undecodable channel name
returns immediately; otherwise the live channel type is queried from the
engine (`chanTypeRaw` is the native `csoundGetChannelPtr` return, masked with
`CSOUND_CHANNEL_TYPE_MASK`), and the output closure receives a scalar for a
control channel or the NUL-terminated string read from the cell (an
undecodable string becomes empty) for a string channel. -/
def outputChannelCallback (cbs : Callbacks) (channelName : List Nat)
    (cell : ChanCell) (chanTypeRaw : Nat) : FfiResult Unit :=
  Trampoline.catch
    (match utf8Decode channelName with
     | none => .ok ()
     | some nm =>
       let channel_type := Nat.land chanTypeRaw 15
       match cbs.output_channel_cb with
       | none => .ok ()
       | some f =>
         if channel_type = 1 then
           f (String.mk nm) (.CS_CONTROL_CHANNEL cell.fval)
         else if channel_type = 3 then
           f (String.mk nm)
             (.CS_STRING_CHANNEL
               ((ptr_to_string (some (cell.bytes.takeWhile (· ≠ 0)))).getD ""))
         else .ok ())

/-- Embeds `Trampoline::midiInOpenCallback`: an undecodable device name
returns `CSOUND_ERROR` (-1) without dispatching; otherwise the MIDI-in-open
closure is dispatched if present and `CSOUND_SUCCESS` (0) is returned. -/
def midiInOpenCallback (cbs : Callbacks) (devName : List Nat) :
    FfiResult Int :=
  Trampoline.catch
    (match utf8Decode devName with
     | none => .ok (-1)
     | some nm =>
       match cbs.midi_in_open_cb with
       | some f => (f (String.mk nm)).map (fun _ => 0)
       | none => .ok 0)

/-- Embeds `Trampoline::midiOutOpenCallback` (same shape as the MIDI-in-open
trampoline, reading the `midi_out_open_cb` slot). -/
def midiOutOpenCallback (cbs : Callbacks) (devName : List Nat) :
    FfiResult Int :=
  Trampoline.catch
    (match utf8Decode devName with
     | none => .ok (-1)
     | some nm =>
       match cbs.midi_out_open_cb with
       | some f => (f (String.mk nm)).map (fun _ => 0)
       | none => .ok 0)

/-- Embeds `Trampoline::midiReadCallback`: the MIDI-read closure fills the
byte buffer and its count is returned; an empty slot returns `-1`.  The
result carries (native return value, buffer contents after the call). -/
def midiReadCallback (cbs : Callbacks) (buf : List Nat) :
    FfiResult (Int × List Nat) :=
  Trampoline.catch
    (match cbs.midi_read_cb with
     | some f => (f buf).map (fun r => ((r.2 : Int), r.1))
     | none => .ok (-1, buf))

/-- Embeds `Trampoline::midiWriteCallback`: the MIDI-write closure consumes
the byte buffer and its count is returned; an empty slot returns `-1`. -/
def midiWriteCallback (cbs : Callbacks) (buf : List Nat) : FfiResult Int :=
  Trampoline.catch
    (match cbs.midi_write_cb with
     | some f => (f buf).map (fun n => (n : Nat) |> Int.ofNat)
     | none => .ok (-1))

/-- Embeds `Trampoline::midiInCloseCallback`: dispatches the close closure if
any and returns `CSOUND_SUCCESS` (0). -/
def midiInCloseCallback (cbs : Callbacks) : FfiResult Int :=
  Trampoline.catch
    (match cbs.midi_in_close_cb with
     | some f => (f ()).map (fun _ => 0)
     | none => .ok 0)

/-- Embeds `Trampoline::midiOutCloseCallback`. -/
def midiOutCloseCallback (cbs : Callbacks) : FfiResult Int :=
  Trampoline.catch
    (match cbs.midi_out_close_cb with
     | some f => (f ()).map (fun _ => 0)
     | none => .ok 0)

/-- Embeds `Trampoline::yieldCallback`: the yield closure's boolean is
returned as a C int; an empty slot returns `0`. -/
def yieldCallback (cbs : Callbacks) : FfiResult Int :=
  Trampoline.catch
    (match cbs.yield_cb with
     | some f => (f ()).map (fun b => if b then (1 : Int) else 0)
     | none => .ok 0)

end Trampoline

/-- Embeds the private `ChannelInternalType` selector of `channels.rs`
(source variants `AUDIO`, `CONTROL`, `STR`; the first is written `Audio`
here), which the `impl_get_channel_trait!` macro instantiates with
`AudioChannel`, `ControlChannel` and `StrChannel`. -/
inductive ChannelInternalType where
  | Audio
  | CONTROL
  | STR
deriving DecidableEq, Repr

/-- Computation that can end in a Rust panic. -/
inductive Panics (α : Type) where
  | ok (a : α)
  | panicked
deriving DecidableEq, Repr

/-- Result of a channel-view acquisition: a view, a typed `Status` error, or
a Rust panic. -/
inductive AcqResult (α : Type) where
  | ok (v : α)
  | err (s : Status)
  | panicked
deriving DecidableEq, Repr

/-- Observable responses of the native engine used by the channel paths of
`channels.rs`/`csound.rs`: the current `ksmps`, and per channel name the
`csoundGetChannelDatasize` answer and the `csoundGetChannelPtr` status and
written pointer.  The native engine is outside this repository; these fields
parametrise its behaviour. -/
structure ChanEngine where
  ksmps : Nat
  datasize : String → Nat
  chanPtrStatus : String → Int
  chanPtrAddr : String → Nat

/-- Embeds `Csound::get_channel_data_size` from `csound.rs` lines 1625-1628:
`CString::new(name).unwrap()` panics when the name holds a NUL byte;
otherwise the native `csoundGetChannelDatasize` answer is returned. -/
def Csound.get_channel_data_size (eng : ChanEngine) (name : String) :
    Panics Nat :=
  if hasNulByte name then .panicked else .ok (eng.datasize name)

/-- Modelled from the spec: `Csound::get_raw_channel_ptr` is code of this
repository that is not present under `src/` (only its two callers in
`channels.rs` are).  Per the spec contract for acquisition, it "fails with
NameInvalid if the name cannot be represented as engine-compatible text"
(mapped to the native `CSOUND_ERROR` status `-1`), and otherwise yields the
native `csoundGetChannelPtr` status and pointer, taken here from the
`ChanEngine` parameters. -/
def Csound.get_raw_channel_ptr (eng : ChanEngine) (name : String)
    (_bits : Int) : Int × Nat :=
  if hasNulByte name then (-1, 0)
  else (eng.chanPtrStatus name, eng.chanPtrAddr name)

/-- Embeds the value-level content of `ChannelPtr` from `channels.rs`: the
raw base pointer (an address into engine memory) and the declared element
count; the two phantom marker parameters carry no data. -/
structure ChannelPtrV where
  ptr : Nat
  len : Nat
deriving DecidableEq, Repr

/-- Embeds `GetChannel::get_input_channel` from `channels.rs` lines 311-346:
the element count and native type bits are chosen per content kind (the
string case queries `get_channel_data_size`, which can panic on an invalid
name), then the raw pointer is requested and the native status mapped through
`Status::from`, with `CS_SUCCESS` producing the view and every other status a
typed error. -/
def get_input_channel (eng : ChanEngine) (name : String)
    (kind : ChannelInternalType) : AcqResult ChannelPtrV :=
  let lenP : Panics Nat :=
    match kind with
    | .Audio => .ok eng.ksmps
    | .CONTROL => .ok 1
    | .STR => Csound.get_channel_data_size eng name
  let bits : Int :=
    match kind with
    | .Audio => 2 + 16
    | .CONTROL => 1 + 16
    | .STR => 3 + 16
  match lenP with
  | .panicked => .panicked
  | .ok len =>
    let r := Csound.get_raw_channel_ptr eng name bits
    match Status.fromInt r.1 with
    | .CS_SUCCESS => .ok { ptr := r.2, len := len }
    | .CS_OK channel => .err (.CS_OK channel)
    | result => .err result

/-- Embeds `GetChannel::get_output_channel` from `channels.rs` lines 406-442
(identical to the input accessor except for the direction bit). -/
def get_output_channel (eng : ChanEngine) (name : String)
    (kind : ChannelInternalType) : AcqResult ChannelPtrV :=
  let lenP : Panics Nat :=
    match kind with
    | .Audio => .ok eng.ksmps
    | .CONTROL => .ok 1
    | .STR => Csound.get_channel_data_size eng name
  let bits : Int :=
    match kind with
    | .Audio => 2 + 32
    | .CONTROL => 1 + 32
    | .STR => 3 + 32
  match lenP with
  | .panicked => .panicked
  | .ok len =>
    let r := Csound.get_raw_channel_ptr eng name bits
    match Status.fromInt r.1 with
    | .CS_SUCCESS => .ok { ptr := r.2, len := len }
    | .CS_OK channel => .err (.CS_OK channel)
    | result => .err result

/-- Engine memory for scalar control channels: one `f64` cell per address. -/
def ControlStore : Type := Nat → Float

/-- Embeds `InputChannelPtr::write` for `ChannelPtr<ControlChannel,
Writable>` (`channels.rs` lines 173-180): `*self.ptr = inp`. -/
def ChannelPtrV.writeControl (v : ChannelPtrV) (mem : ControlStore)
    (inp : Float) : ControlStore :=
  fun a => if a = v.ptr then inp else mem a

/-- Embeds `OutputChannelPtr::read` for `ChannelPtr<ControlChannel,
Readable>` (`channels.rs` lines 163-171): `&*self.ptr`. -/
def ChannelPtrV.readControl (v : ChannelPtrV) (mem : ControlStore) : Float :=
  mem v.ptr

/-- Embeds `InputChannelPtr::write` for `ChannelPtr<AudioChannel, Writable>`
(`channels.rs` lines 192-209): the copy length starts as the input length,
is clamped to the view length when the view is smaller, and that many
elements are copied to the start of the channel buffer. -/
def ChannelPtrV.writeAudio (v : ChannelPtrV) (mem : List Float)
    (inp : List Float) : List Float :=
  let len := inp.length
  let size := v.len
  let len := if size < len then size else len
  ptrCopy inp mem len

/-- Embeds `InputChannelPtr::write` for `ChannelPtr<StrChannel, Writable>`
(`channels.rs` lines 221-238), the byte variant of the clamped copy. -/
def ChannelPtrV.writeStr (v : ChannelPtrV) (mem : List Nat)
    (inp : List Nat) : List Nat :=
  let len := inp.length
  let size := v.len
  let len := if size < len then size else len
  ptrCopy inp mem len

/-- Embeds the value-level content of `BufferPtr` from `csound.rs`. -/
structure BufferPtrV where
  ptr : Nat
  len : Nat
deriving DecidableEq, Repr

/-- Embeds `BufferPtr::copy_from_slice` from `csound.rs` lines 3030-3040:
the clamped copy together with the returned element count.  The result is
(buffer contents after the copy, returned count). -/
def BufferPtrV.copy_from_slice (v : BufferPtrV) (mem : List Float)
    (slice : List Float) : List Float × Nat :=
  let len := slice.length
  let size := v.len
  let len := if size < len then size else len
  (ptrCopy slice mem len, len)

/-- One observable native call made by `impl Drop for Csound`. -/
inductive TeardownStep where
  | stop
  | cleanup
  | dropRegistry
  | destroyMessageBuffer
  | destroyHandle
deriving DecidableEq, Repr

/-- Trace of native teardown calls issued so far. -/
structure TraceState where
  trace : List TeardownStep
deriving DecidableEq, Repr

/-- Records the `csoundStop` call. -/
def csoundStop (s : TraceState) : TraceState :=
  { trace := s.trace ++ [.stop] }

/-- Records the `csoundCleanup` call. -/
def csoundCleanup (s : TraceState) : TraceState :=
  { trace := s.trace ++ [.cleanup] }

/-- Records `Box::from_raw(csoundGetHostData(..))`, which reclaims and drops
the boxed `CallbackHandler` registry. -/
def reclaimHostData (s : TraceState) : TraceState :=
  { trace := s.trace ++ [.dropRegistry] }

/-- Records the `csoundDestroyMessageBuffer` call. -/
def csoundDestroyMessageBuffer (s : TraceState) : TraceState :=
  { trace := s.trace ++ [.destroyMessageBuffer] }

/-- Records the `csoundDestroy` call. -/
def csoundDestroy (s : TraceState) : TraceState :=
  { trace := s.trace ++ [.destroyHandle] }

/-- Embeds `impl Drop for Csound` from `csound.rs` lines 2742-2758:
stop, cleanup, reclaim the boxed registry, destroy the message buffer when
`use_msg_buffer` is set, destroy the native handle. -/
def Csound.dropImpl (use_msg_buffer : Bool) (s : TraceState) : TraceState :=
  let s := csoundStop s
  let s := csoundCleanup s
  let s := reclaimHostData s
  let s := if use_msg_buffer then csoundDestroyMessageBuffer s else s
  csoundDestroy s

/-- The complete teardown trace of one engine instance whose
`use_msg_buffer` flag has the given value. -/
def dropTrace (use_msg_buffer : Bool) : List TeardownStep :=
  (Csound.dropImpl use_msg_buffer { trace := [] }).trace

/-- C1.  The claim says registering a closure stores it in the registry slot
of its own event kind, and in particular that registering a record-open
closure fills the record-open slot.  The code does not: both
`Callbacks::set_rec_open_cb` and `Csound::rec_open_audio_callback` leave
`rec_open_cb` untouched and overwrite `play_open_cb` with the record-open
closure (while still installing the record-open trampoline, which reads the
`rec_open_cb` slot). -/
theorem c1_rec_open_registration_misses_its_slot
    (cb : RtAudioParams → CbOutcome Status) (c : Callbacks) :
    ((c.set_rec_open_cb cb).1.rec_open_cb = c.rec_open_cb ∧
      (c.set_rec_open_cb cb).1.play_open_cb = some cb ∧
      (c.set_rec_open_cb cb).2 = EventKind.recOpen) ∧
    ((Csound.rec_open_audio_callback c cb).1.rec_open_cb = c.rec_open_cb ∧
      (Csound.rec_open_audio_callback c cb).1.play_open_cb = some cb ∧
      (Csound.rec_open_audio_callback c cb).2 = EventKind.recOpen) :=
  ⟨⟨rfl, rfl, rfl⟩, ⟨rfl, rfl, rfl⟩⟩

/-- C2, counterexample.  The claim says the real-time record trampoline with
an empty slot returns zero elements written; on the empty registry and an
empty buffer it in fact returns `-1`. -/
theorem c2_empty_rtrecord_is_not_zero :
    Trampoline.rtrecordCallback Callbacks.empty [] ≠
      FfiResult.ret (0, ([] : List Float)) := by
  intro h
  have h2 : ((-1 : Int), ([] : List Float)) = (0, ([] : List Float)) := by
    injection h
  have h3 : (-1 : Int) = 0 := congrArg Prod.fst h2
  exact absurd h3 (by decide)

/-- C2, amended.  Every trampoline invoked while its registry slot is empty
returns a fixed neutral value and does not crash: the real-time record
trampoline returns `-1` with the buffer untouched, the record-open
trampoline returns `-1` (not successful), the play-open trampoline returns
`0` (success), the MIDI read and write trampolines return `-1`, the MIDI
open and close trampolines report success for a decodable device name, the
yield and device-list trampolines return `0`, and the void trampolines
simply return. -/
theorem c2_empty_slot_sentinels (buf : List Float) (mbuf msg bs : List Nat)
    (dev : RtAudioParamsRaw) (adev : CsAudioDeviceRaw)
    (isOut attr ds ct ft op tmp : Nat) (fp : Option (List Nat))
    (cell : ChanCell) :
    Trampoline.rtrecordCallback Callbacks.empty buf = .ret (-1, buf) ∧
    Trampoline.playOpenCallback Callbacks.empty dev = .ret 0 ∧
    Trampoline.recOpenCallback Callbacks.empty dev = .ret (-1) ∧
    Trampoline.rtcloseCallback Callbacks.empty = .ret () ∧
    Trampoline.senseEventCallback Callbacks.empty = .ret () ∧
    Trampoline.rtplayCallback Callbacks.empty buf = .ret () ∧
    Trampoline.message_string_cb Callbacks.empty attr msg = .ret () ∧
    Trampoline.fileOpenCallback Callbacks.empty fp ft op tmp = .ret () ∧
    Trampoline.inputChannelCallback Callbacks.empty bs cell ds = .ret cell ∧
    Trampoline.outputChannelCallback Callbacks.empty bs cell ct = .ret () ∧
    Trampoline.audioDeviceListCallback Callbacks.empty adev isOut = .ret 0 ∧
    Trampoline.midiReadCallback Callbacks.empty mbuf = .ret (-1, mbuf) ∧
    Trampoline.midiWriteCallback Callbacks.empty mbuf = .ret (-1) ∧
    Trampoline.midiInCloseCallback Callbacks.empty = .ret 0 ∧
    Trampoline.midiOutCloseCallback Callbacks.empty = .ret 0 ∧
    Trampoline.yieldCallback Callbacks.empty = .ret 0 ∧
    Trampoline.midiInOpenCallback Callbacks.empty bs =
      .ret (if (utf8Decode bs).isSome then 0 else -1) ∧
    Trampoline.midiOutOpenCallback Callbacks.empty bs =
      .ret (if (utf8Decode bs).isSome then 0 else -1) := by
  refine ⟨rfl, rfl, rfl, rfl, rfl, rfl, ?_, rfl, ?_, ?_, rfl, rfl, rfl, rfl,
    rfl, rfl, ?_, ?_⟩
  · cases h : utf8Decode msg <;>
      simp [Trampoline.message_string_cb, Callbacks.empty, h]
  · cases h : utf8Decode bs <;>
      simp [Trampoline.inputChannelCallback, Callbacks.empty, h]
  · cases h : utf8Decode bs <;>
      simp [Trampoline.outputChannelCallback, Callbacks.empty, h]
  · cases h : utf8Decode bs <;>
      simp [Trampoline.midiInOpenCallback, Callbacks.empty, h]
  · cases h : utf8Decode bs <;>
      simp [Trampoline.midiOutOpenCallback, Callbacks.empty, h]

/-- C9, counterexample.  When the engine instance had created a message
buffer, its teardown trace is not the four-step sequence the claim
describes: a `csoundDestroyMessageBuffer` call occurs between reclaiming the
registry and destroying the handle. -/
theorem c9_msgbuffer_breaks_exact_sequence :
    dropTrace true ≠
      [TeardownStep.stop, TeardownStep.cleanup, TeardownStep.dropRegistry,
        TeardownStep.destroyHandle] := by decide

/-- C9, amended.  Teardown always performs stop, cleanup, registry
reclamation and native-handle destruction in this order; when no message
buffer was created these are exactly the four steps, and when one was
created the only additional step is destroying the message buffer, placed
between reclaiming the registry and destroying the handle. -/
theorem c9_teardown_order (use_msg_buffer : Bool) :
    List.Sublist
      [TeardownStep.stop, TeardownStep.cleanup, TeardownStep.dropRegistry,
        TeardownStep.destroyHandle] (dropTrace use_msg_buffer) ∧
    dropTrace false =
      [TeardownStep.stop, TeardownStep.cleanup, TeardownStep.dropRegistry,
        TeardownStep.destroyHandle] ∧
    dropTrace true =
      [TeardownStep.stop, TeardownStep.cleanup, TeardownStep.dropRegistry,
        TeardownStep.destroyMessageBuffer, TeardownStep.destroyHandle] := by
  cases use_msg_buffer <;> exact ⟨by decide, rfl, rfl⟩

/-- C5.  The claim says every acquisition failure surfaces as a typed error
result rather than a panic.  The typed mappings do hold where they are
reached — a `-4` native status becomes `CS_MEMORY` (out of memory), a
positive native status (an existing channel of incompatible type) becomes
`CS_OK type` and is an error, never a silent success, and an invalid name
becomes `CS_ERROR` for control and audio kinds — but for a string channel an
interior-NUL name panics inside `Csound::get_channel_data_size`
(`CString::new(name).unwrap()`) before any typed error can be produced. -/
theorem c5_acquisition_failure_modes :
    (get_input_channel
        { ksmps := 8, datasize := fun _ => 5, chanPtrStatus := fun _ => 0,
          chanPtrAddr := fun _ => 100 } "a\x00b" .STR = .panicked) ∧
    (get_output_channel
        { ksmps := 8, datasize := fun _ => 5, chanPtrStatus := fun _ => 0,
          chanPtrAddr := fun _ => 100 } "a\x00b" .STR = .panicked) ∧
    (get_input_channel
        { ksmps := 8, datasize := fun _ => 5, chanPtrStatus := fun _ => -4,
          chanPtrAddr := fun _ => 0 } "freq" .CONTROL = .err .CS_MEMORY) ∧
    (get_input_channel
        { ksmps := 8, datasize := fun _ => 5, chanPtrStatus := fun _ => 2,
          chanPtrAddr := fun _ => 0 } "freq" .CONTROL = .err (.CS_OK 2)) ∧
    (get_input_channel
        { ksmps := 8, datasize := fun _ => 5, chanPtrStatus := fun _ => 0,
          chanPtrAddr := fun _ => 100 } "a\x00b" .CONTROL = .err .CS_ERROR) := by
  refine ⟨?_, ?_, ?_, ?_, ?_⟩ <;> decide

/-- Element count the spec prescribes for a successfully acquired view,
per content kind: Control is 1, Audio is the engine's current ksmps, String
is the channel's last-reported data size. -/
def specElementCount (eng : ChanEngine) (name : String) :
    ChannelInternalType → Nat
  | .Audio => eng.ksmps
  | .CONTROL => 1
  | .STR => eng.datasize name

/-- C6.  Every successfully acquired channel view, input or output, has the
element count the spec prescribes for its content kind. -/
theorem c6_view_element_count (eng : ChanEngine) (name : String)
    (kind : ChannelInternalType) (v : ChannelPtrV) :
    (get_input_channel eng name kind = .ok v →
      v.len = specElementCount eng name kind) ∧
    (get_output_channel eng name kind = .ok v →
      v.len = specElementCount eng name kind) := by
  constructor <;> intro h <;> cases kind <;>
    simp only [get_input_channel, get_output_channel,
      Csound.get_channel_data_size, specElementCount] at h ⊢
  all_goals repeat' split at h
  all_goals try cases h
  all_goals try rfl
  all_goals rename_i lenP len heq1 x heq2
  all_goals split at heq1
  all_goals cases heq1
  all_goals rfl

/-- C6, witness. -/
theorem c6_view_element_count_witness :
    (ChannelPtrV.mk 100 1).len =
      specElementCount
        { ksmps := 8, datasize := fun _ => 5, chanPtrStatus := fun _ => 0,
          chanPtrAddr := fun _ => 100 } "freq" .CONTROL :=
  (c6_view_element_count
    { ksmps := 8, datasize := fun _ => 5, chanPtrStatus := fun _ => 0,
      chanPtrAddr := fun _ => 100 } "freq" .CONTROL
    (ChannelPtrV.mk 100 1)).1 (by decide)

/-- C7.  A Writable control view and a Readable control view acquired for
the same name on the same engine instance receive the same raw pointer, so
writing a value through the first and reading through the second yields the
value written. -/
theorem c7_control_roundtrip (eng : ChanEngine) (name : String)
    (w r : ChannelPtrV) (mem : ControlStore) (x : Float) :
    get_input_channel eng name .CONTROL = .ok w →
    get_output_channel eng name .CONTROL = .ok r →
    r.readControl (w.writeControl mem x) = x := by
  intro hw hr
  have hwp : w.ptr = (Csound.get_raw_channel_ptr eng name (1 + 16)).2 := by
    simp only [get_input_channel] at hw
    split at hw
    · exact ((AcqResult.ok.injEq _ _).mp hw).symm ▸ rfl
    · cases hw
    · cases hw
  have hrp : r.ptr = (Csound.get_raw_channel_ptr eng name (1 + 32)).2 := by
    simp only [get_output_channel] at hr
    split at hr
    · exact ((AcqResult.ok.injEq _ _).mp hr).symm ▸ rfl
    · cases hr
    · cases hr
  have hsame : r.ptr = w.ptr := by
    rw [hwp, hrp]; rfl
  simp [ChannelPtrV.readControl, ChannelPtrV.writeControl, hsame]

/-- C7, witness. -/
theorem c7_control_roundtrip_witness :
    (ChannelPtrV.mk 100 1).readControl
      ((ChannelPtrV.mk 100 1).writeControl (fun _ => 0) 440.0) = 440.0 :=
  c7_control_roundtrip
    { ksmps := 8, datasize := fun _ => 5, chanPtrStatus := fun _ => 0,
      chanPtrAddr := fun _ => 100 } "freq"
    (ChannelPtrV.mk 100 1) (ChannelPtrV.mk 100 1) (fun _ => 0) 440.0
    (by decide) (by decide)

/-- Elements strictly below the copy count come from the source. -/
theorem ptrCopy_getElem?_lt {α : Type} (src dst : List α) (n i : Nat)
    (hn : n ≤ src.length) (hi : i < n) :
    (ptrCopy src dst n)[i]? = src[i]? := by
  unfold ptrCopy
  have hl : i < (src.take n).length := by
    rw [List.length_take]; omega
  rw [List.getElem?_append_left hl, List.getElem?_take_of_lt hi]

/-- Elements at or above the copy count keep their destination values: the
copy never touches the destination past `n`. -/
theorem ptrCopy_getElem?_ge {α : Type} (src dst : List α) (n i : Nat)
    (hn : n ≤ src.length) (hi : n ≤ i) :
    (ptrCopy src dst n)[i]? = dst[i]? := by
  unfold ptrCopy
  have hl : (src.take n).length ≤ i := by
    rw [List.length_take]; omega
  rw [List.getElem?_append_right hl, List.getElem?_drop]
  congr 1
  rw [List.length_take]
  omega

/-- The clamping the write paths perform, `if size < len then size else len`
on `len = input length` and `size = view length`, is the minimum. -/
theorem clamp_eq_min (len size : Nat) :
    (if size < len then size else len) = min len size := by
  split <;> omega

/-- C3.  Every slice-form write — the audio-channel write, the
string-channel write, and `BufferPtr::copy_from_slice` — copies exactly
`min(input length, view length)` elements into the start of the view's
memory and leaves every position at or past that count (in particular every
position past the view's declared length) unchanged; `copy_from_slice`
additionally reports that count.  The functions are total, so no input can
make them panic. -/
theorem c3_slice_write_truncates (v : ChannelPtrV) (bp : BufferPtrV)
    (mem inp : List Float) (bmem binp : List Nat) (i : Nat) :
    (i < min inp.length v.len → (v.writeAudio mem inp)[i]? = inp[i]?) ∧
    (min inp.length v.len ≤ i → (v.writeAudio mem inp)[i]? = mem[i]?) ∧
    (i < min binp.length v.len → (v.writeStr bmem binp)[i]? = binp[i]?) ∧
    (min binp.length v.len ≤ i → (v.writeStr bmem binp)[i]? = bmem[i]?) ∧
    ((bp.copy_from_slice mem inp).2 = min inp.length bp.len) ∧
    (i < min inp.length bp.len → (bp.copy_from_slice mem inp).1[i]? = inp[i]?) ∧
    (min inp.length bp.len ≤ i →
      (bp.copy_from_slice mem inp).1[i]? = mem[i]?) := by
  refine ⟨?_, ?_, ?_, ?_, ?_, ?_, ?_⟩ <;>
    simp only [ChannelPtrV.writeAudio, ChannelPtrV.writeStr,
      BufferPtrV.copy_from_slice, clamp_eq_min] <;>
    (try intro hi) <;>
    first
    | exact ptrCopy_getElem?_lt _ _ _ _ (Nat.min_le_left _ _) hi
    | exact ptrCopy_getElem?_ge _ _ _ _ (Nat.min_le_left _ _) hi

/-- C3, witness. -/
theorem c3_slice_write_truncates_witness :
    ((ChannelPtrV.mk 7 2).writeAudio [0, 0, 0] [1.5, 2.5, 3.5])[1]? =
      some 2.5 ∧
    ((ChannelPtrV.mk 7 2).writeAudio [0, 0, 0] [1.5, 2.5, 3.5])[2]? =
      some 0 ∧
    ((ChannelPtrV.mk 7 2).writeStr [9, 9, 9] [1, 2, 3])[1]? = some 2 ∧
    ((ChannelPtrV.mk 7 2).writeStr [9, 9, 9] [1, 2, 3])[2]? = some 9 ∧
    ((BufferPtrV.mk 7 2).copy_from_slice [0, 0, 0] [1.5, 2.5, 3.5]).2 = 2 ∧
    ((BufferPtrV.mk 7 2).copy_from_slice [0, 0, 0] [1.5, 2.5, 3.5]).1[1]? =
      some 2.5 ∧
    ((BufferPtrV.mk 7 2).copy_from_slice [0, 0, 0] [1.5, 2.5, 3.5]).1[2]? =
      some 0 := by
  have h1 := c3_slice_write_truncates (ChannelPtrV.mk 7 2) (BufferPtrV.mk 7 2)
    [0, 0, 0] [1.5, 2.5, 3.5] [9, 9, 9] [1, 2, 3] 1
  have h2 := c3_slice_write_truncates (ChannelPtrV.mk 7 2) (BufferPtrV.mk 7 2)
    [0, 0, 0] [1.5, 2.5, 3.5] [9, 9, 9] [1, 2, 3] 2
  exact ⟨(h1.1 (by decide)).trans rfl,
    (h2.2.1 (by decide)).trans rfl,
    (h1.2.2.1 (by decide)).trans rfl,
    (h2.2.2.2.1 (by decide)).trans rfl,
    h1.2.2.2.2.1.trans (by decide),
    (h1.2.2.2.2.2.1 (by decide)).trans rfl,
    (h2.2.2.2.2.2.2 (by decide)).trans rfl⟩

/-- C10.  When the input-channel closure returns a string channel value, the
trampoline copies the string's bytes into the channel cell exactly when the
engine-reported channel data size is at most the string's byte length and
the string holds no NUL byte; in every other case — including a string
strictly shorter than the data size — the cell is left unchanged. -/
theorem c10_input_channel_string_copy (cbs : Callbacks)
    (f : String → CbOutcome ChannelData) (bs : List Nat) (nm : List Char)
    (cell : ChanCell) (datasize : Nat) (s : String) :
    utf8Decode bs = some nm →
    cbs.input_channel_cb = some f →
    f (String.mk nm) = .ok (.CS_STRING_CHANNEL s) →
    Trampoline.inputChannelCallback cbs bs cell datasize =
      .ret
        (if datasize ≤ (strBytes s).length ∧ (strBytes s).contains 0 = false
          then { cell with
            bytes := strBytes s ++ cell.bytes.drop (strBytes s).length }
          else cell) := by
  intro hdec hslot hf
  simp only [Trampoline.inputChannelCallback, hdec, hslot, hf, CbOutcome.map,
    ptrCopy, Trampoline.catch_ok]
  by_cases h1 : datasize ≤ (strBytes s).length <;>
    by_cases h2 : (strBytes s).contains 0 = false <;>
    simp [h1, h2, ptrCopy, List.take_length]

/-- C10, witness. -/
theorem c10_input_channel_string_copy_witness :
    Trampoline.inputChannelCallback
      { Callbacks.empty with
        input_channel_cb := some (fun _ => .ok (.CS_STRING_CHANNEL "hi")) }
      [0x61] (ChanCell.mk 0 [5, 6, 7]) 1 =
      .ret (ChanCell.mk 0 [104, 105, 7]) :=
  (c10_input_channel_string_copy
    { Callbacks.empty with
      input_channel_cb := some (fun _ => .ok (.CS_STRING_CHANNEL "hi")) }
    (fun _ => .ok (.CS_STRING_CHANNEL "hi")) [0x61] [Char.ofNat 97]
    (ChanCell.mk 0 [5, 6, 7]) 1 "hi" (by decide) rfl rfl).trans (by rfl)

/-- C8.  Every trampoline receiving a native C string treats undecodable
bytes as absence of value: the message, channel-input and channel-output
trampolines return their neutral results without dispatching any closure
(the equations hold for every registry, including one whose closure would
panic, so no dispatch can have occurred and nothing panics), the MIDI open
trampolines return the ordinary error status `-1` without dispatching, and
the trampolines that still dispatch — play-open, record-open, device-list,
file-open — substitute an absent (`none`) value for the undecodable field. -/
theorem c8_invalid_text_treated_as_absent (bad : List Nat) (cbs : Callbacks)
    (attr : Nat) (cell : ChanCell) (ds ct : Nat) (dev : RtAudioParamsRaw)
    (adev : CsAudioDeviceRaw) (isOut ft op tmp : Nat) :
    utf8Decode bad = none →
    Trampoline.message_string_cb cbs attr bad = .ret () ∧
    Trampoline.inputChannelCallback cbs bad cell ds = .ret cell ∧
    Trampoline.outputChannelCallback cbs bad cell ct = .ret () ∧
    Trampoline.midiInOpenCallback cbs bad = .ret (-1) ∧
    Trampoline.midiOutOpenCallback cbs bad = .ret (-1) ∧
    (dev.devName = some bad → (rtParamsOfRaw dev).devName = none) ∧
    (adev.device_name = bad → (csDeviceOfRaw adev isOut).device_name = none) ∧
    (fileInfoOfRaw (some bad) ft op tmp).name = none := by
  intro hbad
  refine ⟨?_, ?_, ?_, ?_, ?_, ?_, ?_, ?_⟩
  · simp [Trampoline.message_string_cb, hbad]
  · simp [Trampoline.inputChannelCallback, hbad]
  · simp [Trampoline.outputChannelCallback, hbad]
  · simp [Trampoline.midiInOpenCallback, hbad]
  · simp [Trampoline.midiOutOpenCallback, hbad]
  · intro hdev
    simp [rtParamsOfRaw, hdev, ptr_to_string, hbad]
  · intro hadev
    simp [csDeviceOfRaw, hadev, ptr_to_string, hbad]
  · simp [fileInfoOfRaw, ptr_to_string, hbad]

/-- C8, witness. -/
theorem c8_invalid_text_treated_as_absent_witness :
    Trampoline.message_string_cb Callbacks.empty 0 [0xFF] = .ret () ∧
    Trampoline.inputChannelCallback Callbacks.empty [0xFF]
      (ChanCell.mk 0 []) 0 = .ret (ChanCell.mk 0 []) ∧
    Trampoline.outputChannelCallback Callbacks.empty [0xFF]
      (ChanCell.mk 0 []) 0 = .ret () ∧
    Trampoline.midiInOpenCallback Callbacks.empty [0xFF] = .ret (-1) ∧
    Trampoline.midiOutOpenCallback Callbacks.empty [0xFF] = .ret (-1) ∧
    (rtParamsOfRaw (RtAudioParamsRaw.mk (some [0xFF]) 0 0 0 0 0 0)).devName =
      none ∧
    (csDeviceOfRaw (CsAudioDeviceRaw.mk [0xFF] [] [] 0) 0).device_name =
      none ∧
    (fileInfoOfRaw (some [0xFF]) 0 0 0).name = none := by
  have h := c8_invalid_text_treated_as_absent [0xFF] Callbacks.empty 0
    (ChanCell.mk 0 []) 0 0 (RtAudioParamsRaw.mk (some [0xFF]) 0 0 0 0 0 0)
    (CsAudioDeviceRaw.mk [0xFF] [] [] 0) 0 0 0 0 (by decide)
  exact ⟨h.1, h.2.1, h.2.2.1, h.2.2.2.1, h.2.2.2.2.1, h.2.2.2.2.2.1 rfl,
    h.2.2.2.2.2.2.1 rfl, h.2.2.2.2.2.2.2⟩

/-- C4.  Every trampoline wraps its whole body in `Trampoline::catch`, so a
panic raised by the registered closure during its invocation ends in
`std::process::exit(-1)`; no trampoline result is ever `unwound`, the
outcome that would mean a panic crossed the FFI boundary into native
frames. -/
theorem c4_trampolines_contain_panics (cbs : Callbacks) (attr : Nat)
    (msg bs mbuf : List Nat) (cs : List Char) (buf : List Float)
    (dev : RtAudioParamsRaw) (adev : CsAudioDeviceRaw)
    (isOut ft op tmp ct : Nat) (fp : Option (List Nat)) (cell : ChanCell)
    (ds : Nat) :
    (∀ f, cbs.message_cb = some f →
      f (MessageType.from_u32 attr) (String.mk cs) = .panic →
      utf8Decode msg = some cs →
      Trampoline.message_string_cb cbs attr msg = .exit (-1)) ∧
    (∀ f, cbs.sense_event_cb = some f → f () = .panic →
      Trampoline.senseEventCallback cbs = .exit (-1)) ∧
    (∀ f, cbs.play_open_cb = some f → f (rtParamsOfRaw dev) = .panic →
      Trampoline.playOpenCallback cbs dev = .exit (-1)) ∧
    (∀ f, cbs.rec_open_cb = some f → f (rtParamsOfRaw dev) = .panic →
      Trampoline.recOpenCallback cbs dev = .exit (-1)) ∧
    (∀ f, cbs.rt_close_cb = some f → f () = .panic →
      Trampoline.rtcloseCallback cbs = .exit (-1)) ∧
    (∀ f, cbs.rt_play_cb = some f → f buf = .panic →
      Trampoline.rtplayCallback cbs buf = .exit (-1)) ∧
    (∀ f, cbs.rt_rec_cb = some f → f buf = .panic →
      Trampoline.rtrecordCallback cbs buf = .exit (-1)) ∧
    (∀ f, cbs.devlist_cb = some f → f (csDeviceOfRaw adev isOut) = .panic →
      Trampoline.audioDeviceListCallback cbs adev isOut = .exit (-1)) ∧
    (∀ f, cbs.file_open_cb = some f →
      f (fileInfoOfRaw fp ft op tmp) = .panic →
      Trampoline.fileOpenCallback cbs fp ft op tmp = .exit (-1)) ∧
    (∀ f, cbs.input_channel_cb = some f → utf8Decode bs = some cs →
      f (String.mk cs) = .panic →
      Trampoline.inputChannelCallback cbs bs cell ds = .exit (-1)) ∧
    (∀ f, cbs.output_channel_cb = some f → utf8Decode bs = some cs →
      Nat.land ct 15 = 1 →
      f (String.mk cs) (.CS_CONTROL_CHANNEL cell.fval) = .panic →
      Trampoline.outputChannelCallback cbs bs cell ct = .exit (-1)) ∧
    (∀ f, cbs.midi_in_open_cb = some f → utf8Decode bs = some cs →
      f (String.mk cs) = .panic →
      Trampoline.midiInOpenCallback cbs bs = .exit (-1)) ∧
    (∀ f, cbs.midi_out_open_cb = some f → utf8Decode bs = some cs →
      f (String.mk cs) = .panic →
      Trampoline.midiOutOpenCallback cbs bs = .exit (-1)) ∧
    (∀ f, cbs.midi_read_cb = some f → f mbuf = .panic →
      Trampoline.midiReadCallback cbs mbuf = .exit (-1)) ∧
    (∀ f, cbs.midi_write_cb = some f → f mbuf = .panic →
      Trampoline.midiWriteCallback cbs mbuf = .exit (-1)) ∧
    (∀ f, cbs.midi_in_close_cb = some f → f () = .panic →
      Trampoline.midiInCloseCallback cbs = .exit (-1)) ∧
    (∀ f, cbs.midi_out_close_cb = some f → f () = .panic →
      Trampoline.midiOutCloseCallback cbs = .exit (-1)) ∧
    (∀ f, cbs.yield_cb = some f → f () = .panic →
      Trampoline.yieldCallback cbs = .exit (-1)) := by
  refine ⟨?_, ?_, ?_, ?_, ?_, ?_, ?_, ?_, ?_, ?_, ?_, ?_, ?_, ?_, ?_, ?_,
    ?_, ?_⟩ <;> intro f <;> intros <;>
    simp_all [Trampoline.message_string_cb, Trampoline.senseEventCallback,
      Trampoline.playOpenCallback, Trampoline.recOpenCallback,
      Trampoline.rtcloseCallback, Trampoline.rtplayCallback,
      Trampoline.rtrecordCallback, Trampoline.audioDeviceListCallback,
      Trampoline.fileOpenCallback, Trampoline.inputChannelCallback,
      Trampoline.outputChannelCallback, Trampoline.midiInOpenCallback,
      Trampoline.midiOutOpenCallback, Trampoline.midiReadCallback,
      Trampoline.midiWriteCallback, Trampoline.midiInCloseCallback,
      Trampoline.midiOutCloseCallback, Trampoline.yieldCallback,
      CbOutcome.map]

/-- Registry with a panicking closure in every slot, used to exercise the
panic-containment theorem. -/
def panicAllCallbacks : Callbacks :=
  { message_cb := some fun _ _ => .panic
    devlist_cb := some fun _ => .panic
    play_open_cb := some fun _ => .panic
    rec_open_cb := some fun _ => .panic
    rt_play_cb := some fun _ => .panic
    rt_rec_cb := some fun _ => .panic
    sense_event_cb := some fun _ => .panic
    keyboard_cb := some fun _ => .panic
    rt_close_cb := some fun _ => .panic
    cscore_cb := some fun _ => .panic
    input_channel_cb := some fun _ => .panic
    output_channel_cb := some fun _ _ => .panic
    file_open_cb := some fun _ => .panic
    midi_in_open_cb := some fun _ => .panic
    midi_out_open_cb := some fun _ => .panic
    midi_read_cb := some fun _ => .panic
    midi_write_cb := some fun _ => .panic
    midi_in_close_cb := some fun _ => .panic
    midi_out_close_cb := some fun _ => .panic
    yield_cb := some fun _ => .panic }

/-- C4, witness. -/
theorem c4_trampolines_contain_panics_witness :
    Trampoline.message_string_cb panicAllCallbacks 0 [97] = .exit (-1) ∧
    Trampoline.senseEventCallback panicAllCallbacks = .exit (-1) ∧
    Trampoline.playOpenCallback panicAllCallbacks
      (RtAudioParamsRaw.mk none 0 0 0 0 0 0) = .exit (-1) ∧
    Trampoline.recOpenCallback panicAllCallbacks
      (RtAudioParamsRaw.mk none 0 0 0 0 0 0) = .exit (-1) ∧
    Trampoline.rtcloseCallback panicAllCallbacks = .exit (-1) ∧
    Trampoline.rtplayCallback panicAllCallbacks [] = .exit (-1) ∧
    Trampoline.rtrecordCallback panicAllCallbacks [] = .exit (-1) ∧
    Trampoline.audioDeviceListCallback panicAllCallbacks
      (CsAudioDeviceRaw.mk [] [] [] 0) 0 = .exit (-1) ∧
    Trampoline.fileOpenCallback panicAllCallbacks none 0 0 0 = .exit (-1) ∧
    Trampoline.inputChannelCallback panicAllCallbacks [97]
      (ChanCell.mk 0 []) 0 = .exit (-1) ∧
    Trampoline.outputChannelCallback panicAllCallbacks [97]
      (ChanCell.mk 0 []) 1 = .exit (-1) ∧
    Trampoline.midiInOpenCallback panicAllCallbacks [97] = .exit (-1) ∧
    Trampoline.midiOutOpenCallback panicAllCallbacks [97] = .exit (-1) ∧
    Trampoline.midiReadCallback panicAllCallbacks [] = .exit (-1) ∧
    Trampoline.midiWriteCallback panicAllCallbacks [] = .exit (-1) ∧
    Trampoline.midiInCloseCallback panicAllCallbacks = .exit (-1) ∧
    Trampoline.midiOutCloseCallback panicAllCallbacks = .exit (-1) ∧
    Trampoline.yieldCallback panicAllCallbacks = .exit (-1) := by
  have h := c4_trampolines_contain_panics panicAllCallbacks 0 [97] [97] []
    [Char.ofNat 97] [] (RtAudioParamsRaw.mk none 0 0 0 0 0 0)
    (CsAudioDeviceRaw.mk [] [] [] 0) 0 0 0 0 1 none (ChanCell.mk 0 []) 0
  exact ⟨h.1 _ rfl rfl (by decide),
    h.2.1 _ rfl rfl,
    h.2.2.1 _ rfl rfl,
    h.2.2.2.1 _ rfl rfl,
    h.2.2.2.2.1 _ rfl rfl,
    h.2.2.2.2.2.1 _ rfl rfl,
    h.2.2.2.2.2.2.1 _ rfl rfl,
    h.2.2.2.2.2.2.2.1 _ rfl rfl,
    h.2.2.2.2.2.2.2.2.1 _ rfl rfl,
    h.2.2.2.2.2.2.2.2.2.1 _ rfl (by decide) rfl,
    h.2.2.2.2.2.2.2.2.2.2.1 _ rfl (by decide) (by decide) rfl,
    h.2.2.2.2.2.2.2.2.2.2.2.1 _ rfl (by decide) rfl,
    h.2.2.2.2.2.2.2.2.2.2.2.2.1 _ rfl (by decide) rfl,
    h.2.2.2.2.2.2.2.2.2.2.2.2.2.1 _ rfl rfl,
    h.2.2.2.2.2.2.2.2.2.2.2.2.2.2.1 _ rfl rfl,
    h.2.2.2.2.2.2.2.2.2.2.2.2.2.2.2.1 _ rfl rfl,
    h.2.2.2.2.2.2.2.2.2.2.2.2.2.2.2.2.1 _ rfl rfl,
    h.2.2.2.2.2.2.2.2.2.2.2.2.2.2.2.2.2 _ rfl rfl⟩
